import Mathlib

/-!
# Verification of `SceneManager.cpp` (CS-330 final project milestones)

A shallow embedding, in Lean 4, of the scene-preparation and rendering module
`7-1_FinalProjectMilestones/Source/SceneManager.cpp`, together with theorems
settling the specification claims about it.

Modelling conventions:
* `float` literals and arithmetic on scene constants are modelled by exact
  rationals (`ℚ`); the transform composer, which uses `cos`/`sin`, is modelled
  over the reals (`ℝ`).
* The texture registry `m_textureIDs[0 .. m_loadedTextures)` is modelled as the
  list of its populated entries, so `m_loadedTextures` is the list's length and
  the array write `m_textureIDs[m_loadedTextures] = e` is an append (whose
  write index is the length of the registry before the write).
* OpenGL, `stb_image` and `ShaderManager` are opaque collaborators: `stbi_load`
  results and `glGenTextures` ids are parameters, and calls into
  `ShaderManager` are recorded as an emitted list of `ShaderWrite` events.
-/

/-- A 3-component vector (glm::vec3) over an arbitrary scalar type. -/
structure Vec3 (α : Type) where
  x : α
  y : α
  z : α
deriving DecidableEq, Repr

/-- A 4-component vector (glm::vec4) over an arbitrary scalar type. -/
structure Vec4 (α : Type) where
  x : α
  y : α
  z : α
  w : α
deriving DecidableEq, Repr

/-! ## Texture registry -/

/-- One entry of `m_textureIDs`: a GPU texture id paired with its tag
(struct `TEXTURE_ID` of `SceneManager.h`). The id is a `GLuint` in the
source; it is modelled as `Int` because lookups mix it with the sentinel
`-1` in an `int` return value. -/
structure TextureEntry where
  ID : Int
  tag : String
deriving DecidableEq, Repr

/-- The populated prefix `m_textureIDs[0 .. m_loadedTextures)` of the texture
registry; `m_loadedTextures` is its length. -/
abbrev TextureRegistry := List TextureEntry

/-- Method `SceneManager::FindTextureID`: linear scan of the registry in registration
order; result is the id of the first entry whose tag compares equal, `-1` when
the scan runs past `m_loadedTextures` without a match. -/
def FindTextureID : TextureRegistry → String → Int
  | [], _ => -1
  | e :: rest, tag => if e.tag = tag then e.ID else FindTextureID rest tag

/-- The scan loop of `SceneManager::FindTextureSlot`, carrying the running
`index` counter. -/
def findTextureSlotFrom : Nat → TextureRegistry → String → Int
  | _, [], _ => -1
  | i, e :: rest, tag =>
      if e.tag = tag then (i : Int) else findTextureSlotFrom (i + 1) rest tag

/-- Method `SceneManager::FindTextureSlot`: same scan as `FindTextureID` but the
result is the matching index rather than the stored id, `-1` on no match. -/
def FindTextureSlot (reg : TextureRegistry) (tag : String) : Int :=
  findTextureSlotFrom 0 reg tag

/-- The OpenGL texture-unit enum `GL_TEXTURE0` (0x84C0). -/
def GL_TEXTURE0 : Nat := 33984

/-- The binding loop of `SceneManager::BindGLTextures`, carrying the loop
counter `i`: entry `i` is bound to texture unit `GL_TEXTURE0 + i`. -/
def bindGLTexturesFrom : Nat → TextureRegistry → List (Nat × Int)
  | _, [] => []
  | i, e :: rest => (GL_TEXTURE0 + i, e.ID) :: bindGLTexturesFrom (i + 1) rest

/-- Method `SceneManager::BindGLTextures`: for each `i < m_loadedTextures`, activate
texture unit `GL_TEXTURE0 + i` and bind `m_textureIDs[i].ID` to it. The
emitted (unit, texture id) pairs are returned in issue order. -/
def BindGLTextures (reg : TextureRegistry) : List (Nat × Int) :=
  bindGLTexturesFrom 0 reg

/-- Outcome of `stbi_load` on an image file: failure, or a decoded image with
its width, height and channel count. -/
inductive StbiResult
  | fail
  | image (width height colorChannels : Nat)
deriving DecidableEq, Repr

/-- Method `SceneManager::CreateGLTexture`. Inputs are the `stbi_load` outcome for
the file, the id produced by `glGenTextures`, and the tag; output is the
returned `bool` together with the registry after the call. On a decoded image
with 3 (RGB) or 4 (RGBA) channels the texture is uploaded and the entry
`{ID := newTextureID, tag := tag}` is written at index `m_loadedTextures`
(an append) and the count is incremented; any other channel count returns
`false` before the registry writes, as does a failed decode. -/
def CreateGLTexture (load : StbiResult) (newTextureID : Int) (tag : String)
    (reg : TextureRegistry) : Bool × TextureRegistry :=
  match load with
  | .image _ _ colorChannels =>
      if colorChannels = 3 then
        (true, reg ++ [{ ID := newTextureID, tag := tag }])
      else if colorChannels = 4 then
        (true, reg ++ [{ ID := newTextureID, tag := tag }])
      else
        (false, reg)
  | .fail => (false, reg)

/-! ## Material registry -/

/-- Struct `OBJECT_MATERIAL`: the per-material shading parameters, keyed by a
tag. Scalars are exact rationals standing for the `float` literals. -/
structure OBJECT_MATERIAL where
  ambientColor : Vec3 ℚ
  ambientStrength : ℚ
  diffuseColor : Vec3 ℚ
  specularColor : Vec3 ℚ
  shininess : ℚ
  tag : String
deriving DecidableEq, Repr

/-- The scan loop of `SceneManager::FindMaterial`: on the first entry whose
tag matches, the five shading fields (not the tag) are copied into the
caller's `material` out-parameter; later entries are not examined. -/
def findMaterialScan : List OBJECT_MATERIAL → String → OBJECT_MATERIAL →
    OBJECT_MATERIAL
  | [], _, material => material
  | e :: rest, tag, material =>
      if e.tag = tag then
        { material with
            ambientColor := e.ambientColor
            ambientStrength := e.ambientStrength
            diffuseColor := e.diffuseColor
            specularColor := e.specularColor
            shininess := e.shininess }
      else
        findMaterialScan rest tag material

/-- Method `SceneManager::FindMaterial`: returns `false` (registry untouched) when
`m_objectMaterials` is empty; otherwise runs the scan loop and then returns
`true` unconditionally — the loop's `bFound` flag is not consulted by the
`return` statement. Result is the returned `bool` paired with the value of
the `material` out-parameter after the call. -/
def FindMaterial (materials : List OBJECT_MATERIAL) (tag : String)
    (material : OBJECT_MATERIAL) : Bool × OBJECT_MATERIAL :=
  if materials.length = 0 then
    (false, material)
  else
    (true, findMaterialScan materials tag material)

/-- The `shinyMaterial` local of `SceneManager::DefineObjectMaterials`. -/
def shinyMaterial : OBJECT_MATERIAL where
  ambientColor := ⟨0.3, 0.1, 0.1⟩
  ambientStrength := 0.1
  diffuseColor := ⟨0.3, 0.3, 0.3⟩
  specularColor := ⟨0.5, 0.5, 0.5⟩
  shininess := 64
  tag := "metal"

/-- The `dullMaterial` local of `SceneManager::DefineObjectMaterials`. -/
def dullMaterial : OBJECT_MATERIAL where
  ambientColor := ⟨0.1, 0.1, 0.1⟩
  ambientStrength := 0.1
  diffuseColor := ⟨0.3, 0.3, 0.3⟩
  specularColor := ⟨0.1, 0.1, 0.1⟩
  shininess := 16
  tag := "wood"

/-- Method `SceneManager::DefineObjectMaterials`: `push_back` of `shinyMaterial`
("metal") then of `dullMaterial` ("wood") onto `m_objectMaterials`. -/
def DefineObjectMaterials (materials : List OBJECT_MATERIAL) :
    List OBJECT_MATERIAL :=
  (materials ++ [shinyMaterial]) ++ [dullMaterial]

/-! ## Shader uniform writes -/

/-- The uniform name `g_ModelName`. -/
def g_ModelName : String := "model"

/-- The uniform name `g_ColorValueName`. -/
def g_ColorValueName : String := "objectColor"

/-- The uniform name `g_TextureValueName`. -/
def g_TextureValueName : String := "objectTexture"

/-- The uniform name `g_UseTextureName`. -/
def g_UseTextureName : String := "bUseTexture"

/-- One call into `ShaderManager`, i.e. one uniform upload. Booleans passed to
`setIntValue` are recorded as `0`/`1`. A `mat4Value` records the `model`
matrix upload by the transform parameters that determine it (the uploaded
matrix is `SetTransformations`' real-valued product of these parameters). -/
inductive ShaderWrite
  | intValue (name : String) (value : Int)
  | sampler2D (name : String) (value : Int)
  | floatValue (name : String) (value : ℚ)
  | vec2Value (name : String) (value : ℚ × ℚ)
  | vec3Value (name : String) (value : Vec3 ℚ)
  | vec4Value (name : String) (value : Vec4 ℚ)
  | mat4Value (name : String) (scaleXYZ : Vec3 ℚ) (xDeg yDeg zDeg : ℚ)
      (positionXYZ : Vec3 ℚ)
deriving DecidableEq, Repr

/-- Method `SceneManager::SetShaderColor`: when the shader manager is non-null, set
`bUseTexture` to `false` and upload the RGBA color; otherwise do nothing. -/
def SetShaderColor (shaderPresent : Bool)
    (redColorValue greenColorValue blueColorValue alphaValue : ℚ) :
    List ShaderWrite :=
  if shaderPresent then
    [.intValue g_UseTextureName 0,
     .vec4Value g_ColorValueName
       ⟨redColorValue, greenColorValue, blueColorValue, alphaValue⟩]
  else []

/-- Method `SceneManager::SetShaderTexture`: when the shader manager is non-null, set
`bUseTexture` to `true` and upload `FindTextureSlot(textureTag)` — whatever it
returns, including the sentinel `-1` — as the sampler value. -/
def SetShaderTexture (shaderPresent : Bool) (reg : TextureRegistry)
    (textureTag : String) : List ShaderWrite :=
  if shaderPresent then
    [.intValue g_UseTextureName 1,
     .sampler2D g_TextureValueName (FindTextureSlot reg textureTag)]
  else []

/-- Method `SceneManager::SetTextureUVScale`: upload the UV scale pair. -/
def SetTextureUVScale (shaderPresent : Bool) (u v : ℚ) : List ShaderWrite :=
  if shaderPresent then [.vec2Value "UVscale" (u, v)] else []

/-- Method `SceneManager::SetShaderMaterial`: when `m_objectMaterials` is non-empty,
run `FindMaterial` into the uninitialized local `material` (modelled by the
indeterminate `material0`) and, when it returned `true`, upload the five
material parameters in source order. -/
def SetShaderMaterial (materials : List OBJECT_MATERIAL)
    (material0 : OBJECT_MATERIAL) (materialTag : String) : List ShaderWrite :=
  if materials.length > 0 then
    let found := FindMaterial materials materialTag material0
    if found.1 then
      [.vec3Value "material.diffuseColor" found.2.diffuseColor,
       .vec3Value "material.specularColor" found.2.specularColor,
       .floatValue "material.shininess" found.2.shininess,
       .vec3Value "material.ambientColor" found.2.ambientColor,
       .floatValue "material.ambientStrength" found.2.ambientStrength]
    else []
  else []

/-! ## Scene calls and their interpretation -/

/-- The primitive meshes drawn by `RenderScene`. -/
inductive ShapeKind
  | plane
  | box
  | taperedCylinder
  | prism
  | pyramid3
deriving DecidableEq, Repr

/-- One statement of the `RenderScene` scene script, with the literal
arguments it passes. -/
inductive SceneCall
  | setTransformations (scaleXYZ : Vec3 ℚ) (xDeg yDeg zDeg : ℚ)
      (positionXYZ : Vec3 ℚ)
  | setShaderColor (r g b a : ℚ)
  | setShaderTexture (textureTag : String)
  | setTextureUVScale (u v : ℚ)
  | setShaderMaterial (materialTag : String)
  | drawMesh (shape : ShapeKind)
deriving DecidableEq, Repr

/-- An externally visible event of a `RenderScene` invocation: a shader
uniform upload or a mesh draw. -/
inductive SceneEvent
  | write (w : ShaderWrite)
  | draw (shape : ShapeKind)
deriving DecidableEq, Repr

/-- The events one scene-script call produces, given the shader-manager
presence, the two registries and the indeterminate contents `material0` of
`SetShaderMaterial`'s uninitialized local. -/
def interpretSceneCall (shaderPresent : Bool) (tex : TextureRegistry)
    (materials : List OBJECT_MATERIAL) (material0 : OBJECT_MATERIAL) :
    SceneCall → List SceneEvent
  | .setTransformations s xDeg yDeg zDeg p =>
      if shaderPresent then
        [.write (.mat4Value g_ModelName s xDeg yDeg zDeg p)]
      else []
  | .setShaderColor r g b a =>
      (SetShaderColor shaderPresent r g b a).map .write
  | .setShaderTexture textureTag =>
      (SetShaderTexture shaderPresent tex textureTag).map .write
  | .setTextureUVScale u v =>
      (SetTextureUVScale shaderPresent u v).map .write
  | .setShaderMaterial materialTag =>
      (SetShaderMaterial materials material0 materialTag).map .write
  | .drawMesh shape => [.draw shape]

/-- The full event trace of a list of scene-script calls. -/
def interpretSceneCalls (shaderPresent : Bool) (tex : TextureRegistry)
    (materials : List OBJECT_MATERIAL) (material0 : OBJECT_MATERIAL)
    (calls : List SceneCall) : List SceneEvent :=
  (calls.map (interpretSceneCall shaderPresent tex materials material0)).flatten

/-! ## Scene preparation -/

/-- The twelve (filename, tag) texture-load requests of
`SceneManager::PrepareScene`, in call order. -/
def PrepareSceneTextureFiles : List (String × String) :=
  [("textures/Brick.jpg", "brick"),
   ("textures/Wood Test.jpg", "wood"),
   ("textures/Wall.jpg", "wall"),
   ("textures/Grass.jpg", "grass"),
   ("textures/PatternCement.jpeg", "cement"),
   ("textures/LightTan.jpg", "beam"),
   ("textures/door.jpg", "door"),
   ("textures/outergreen.jpg", "outergreen"),
   ("textures/concrete.jpeg", "concrete"),
   ("textures/roof.jpg", "roof"),
   ("textures/glass.jpg", "window"),
   ("textures/garagedoor.jpg", "garage")]

/-- Runs a sequence of `CreateGLTexture` calls, threading the registry.
`stbi` gives the decode outcome per filename and `genTex k` the id
`glGenTextures` would produce for the `k`-th call. Besides the final
registry it returns the indices of the registry writes performed (a
successful call writes `m_textureIDs[m_loadedTextures]`, i.e. at the
pre-call length) and the registry size after each call. -/
def runTextureLoads (stbi : String → StbiResult) (genTex : Nat → Int) :
    Nat → List (String × String) → TextureRegistry →
    TextureRegistry × List Nat × List Nat
  | _, [], reg => (reg, [], [])
  | k, (filename, tag) :: rest, reg =>
      let result := CreateGLTexture (stbi filename) (genTex k) tag reg
      let here := if result.1 then [reg.length] else []
      let further := runTextureLoads stbi genTex (k + 1) rest result.2
      (further.1, here ++ further.2.1, result.2.length :: further.2.2)

/-- Modelled from the spec: the texture registry declared in `SceneManager.h`
(not part of the sources) has capacity 16 — "≤16 entries capacity implied by
texture unit limits" — and starts empty. -/
def TEXTURE_REGISTRY_CAPACITY : Nat := 16

/-- The texture-loading portion of `SceneManager::PrepareScene`: the twelve
`CreateGLTexture` calls on `PrepareSceneTextureFiles`, starting from the
empty registry (`m_loadedTextures = 0`). Returns the final registry, the
performed write indices and the registry size after each call. -/
def PrepareScene (stbi : String → StbiResult) (genTex : Nat → Int) :
    TextureRegistry × List Nat × List Nat :=
  runTextureLoads stbi genTex 0 PrepareSceneTextureFiles []

/-! ## Transform composer (`SetTransformations`) -/

/-- 4×4 real matrices; glm stores matrices column-major, so the glm entry
`M[col][row]` is the entry `row, col` here, and the glm `operator*` is the
ordinary matrix product. -/
abbrev Mat4 := Matrix (Fin 4) (Fin 4) ℝ

/-- Function `glm::radians`: degrees to radians. -/
noncomputable def glmRadians (degrees : ℝ) : ℝ := degrees * (Real.pi / 180)

/-- Function `glm::scale(v)`: the diagonal scaling matrix `diag(v.x, v.y, v.z, 1)`. -/
noncomputable def glmScale (v : Vec3 ℝ) : Mat4 :=
  !![v.x, 0, 0, 0;
     0, v.y, 0, 0;
     0, 0, v.z, 0;
     0, 0, 0, 1]

/-- Function `glm::translate(v)`: the identity with `(v.x, v.y, v.z, 1)` as last
column. -/
noncomputable def glmTranslate (v : Vec3 ℝ) : Mat4 :=
  !![1, 0, 0, v.x;
     0, 1, 0, v.y;
     0, 0, 1, v.z;
     0, 0, 0, 1]

/-- Function `glm::normalize` on a 3-vector: divide by the euclidean norm. -/
noncomputable def glmNormalize (v : Vec3 ℝ) : Vec3 ℝ :=
  let len := Real.sqrt (v.x * v.x + v.y * v.y + v.z * v.z)
  ⟨v.x / len, v.y / len, v.z / len⟩

/-- Function `glm::rotate(angle, v)` (gtx/transform, i.e. `rotate(mat4(1), angle, v)`):
the axis–angle rotation matrix built by glm from `c = cos angle`,
`s = sin angle`, the normalized `axis` and `temp = (1 - c) * axis`,
transcribed entry by entry from glm's column-major `Rotate[col][row]`. -/
noncomputable def glmRotate (angle : ℝ) (v : Vec3 ℝ) : Mat4 :=
  let c := Real.cos angle
  let s := Real.sin angle
  let axis := glmNormalize v
  let temp : Vec3 ℝ := ⟨(1 - c) * axis.x, (1 - c) * axis.y, (1 - c) * axis.z⟩
  !![c + temp.x * axis.x, temp.y * axis.x - s * axis.z,
       temp.z * axis.x + s * axis.y, 0;
     temp.x * axis.y + s * axis.z, c + temp.y * axis.y,
       temp.z * axis.y - s * axis.x, 0;
     temp.x * axis.z - s * axis.y, temp.y * axis.z + s * axis.x,
       c + temp.z * axis.z, 0;
     0, 0, 0, 1]

/-- Method `SceneManager::SetTransformations`: build `scale`, the three axis
rotations from the angles in degrees, and `translation`, compose
`modelView = translation * rotationZ * rotationY * rotationX * scale`, and —
when the shader manager is non-null — upload it to the `g_ModelName`
uniform. The result is the (name, matrix) upload performed, if any. -/
noncomputable def SetTransformations (shaderPresent : Bool)
    (scaleXYZ : Vec3 ℝ)
    (XrotationDegrees YrotationDegrees ZrotationDegrees : ℝ)
    (positionXYZ : Vec3 ℝ) : Option (String × Mat4) :=
  let scale := glmScale scaleXYZ
  let rotationX := glmRotate (glmRadians XrotationDegrees) ⟨1, 0, 0⟩
  let rotationY := glmRotate (glmRadians YrotationDegrees) ⟨0, 1, 0⟩
  let rotationZ := glmRotate (glmRadians ZrotationDegrees) ⟨0, 0, 1⟩
  let translation := glmTranslate positionXYZ
  let modelView := translation * rotationZ * rotationY * rotationX * scale
  if shaderPresent then some (g_ModelName, modelView) else none

/-! ## Spec-side transform matrices

The specification describes the model matrix as
`translation × rotZ × rotY × rotX × scale` with `rotX`, `rotY`, `rotZ` the
textbook rotations about the coordinate axes. These matrices are defined
here independently of the glm formulas above. -/

/-- Textbook rotation about the x-axis by `t` radians, as a 4×4 homogeneous
matrix. -/
noncomputable def rotationAboutX (t : ℝ) : Mat4 :=
  !![1, 0, 0, 0;
     0, Real.cos t, -Real.sin t, 0;
     0, Real.sin t, Real.cos t, 0;
     0, 0, 0, 1]

/-- Textbook rotation about the y-axis by `t` radians. -/
noncomputable def rotationAboutY (t : ℝ) : Mat4 :=
  !![Real.cos t, 0, Real.sin t, 0;
     0, 1, 0, 0;
     -Real.sin t, 0, Real.cos t, 0;
     0, 0, 0, 1]

/-- Textbook rotation about the z-axis by `t` radians. -/
noncomputable def rotationAboutZ (t : ℝ) : Mat4 :=
  !![Real.cos t, -Real.sin t, 0, 0;
     Real.sin t, Real.cos t, 0, 0;
     0, 0, 1, 0;
     0, 0, 0, 1]

/-- Spec-side scaling matrix: `diag(v, 1)`. -/
noncomputable def specScaleMatrix (v : Vec3 ℝ) : Mat4 :=
  Matrix.diagonal ![v.x, v.y, v.z, 1]

/-- Spec-side translation matrix: identity plus the translation column. -/
noncomputable def specTranslationMatrix (v : Vec3 ℝ) : Mat4 :=
  Matrix.of fun i j =>
    if i = j then 1 else if j = 3 then ![v.x, v.y, v.z, (0 : ℝ)] i else 0

/-! ## The scene script (`RenderScene`) -/

set_option maxRecDepth 8000 in
/-- Method `SceneManager::RenderScene`, transcribed statement by statement: the five
transform locals are mutable and each block assigns them before calling
`SetTransformations`; the emitted scene-script calls are collected in issue
order. All arguments are the source's literals. -/
def RenderScene : List SceneCall := Id.run do
  let mut calls : Array SceneCall := #[]
  let mut scaleXYZ : Vec3 ℚ := ⟨0, 0, 0⟩
  let mut XrotationDegrees : ℚ := 0
  let mut YrotationDegrees : ℚ := 0
  let mut ZrotationDegrees : ℚ := 0
  let mut positionXYZ : Vec3 ℚ := ⟨0, 0, 0⟩
  -- first plane (ground level)
  scaleXYZ := ⟨20, 1, 10⟩
  XrotationDegrees := 0
  YrotationDegrees := 0
  ZrotationDegrees := 0
  positionXYZ := ⟨0, 0, 0⟩
  calls := calls.push (.setTransformations scaleXYZ XrotationDegrees
    YrotationDegrees ZrotationDegrees positionXYZ)
  calls := calls.push (.setShaderColor 0.5 0.5 0.5 1)
  calls := calls.push (.setShaderTexture "grass")
  calls := calls.push (.setTextureUVScale 1 1)
  calls := calls.push (.setShaderMaterial "metal")
  calls := calls.push (.drawMesh .plane)
  -- drawing second plane (behind the house)
  scaleXYZ := ⟨20, 1, 10⟩
  XrotationDegrees := 90
  YrotationDegrees := 0
  ZrotationDegrees := 0
  positionXYZ := ⟨0, 9, -10⟩
  calls := calls.push (.setTransformations scaleXYZ XrotationDegrees
    YrotationDegrees ZrotationDegrees positionXYZ)
  calls := calls.push (.setShaderColor 0.55 0.55 0.55 1)
  calls := calls.push (.setShaderMaterial "metal")
  calls := calls.push (.drawMesh .plane)
  -- Support Column #1
  scaleXYZ := ⟨1, 0.5, 1⟩
  XrotationDegrees := 0
  YrotationDegrees := 0
  ZrotationDegrees := 0
  positionXYZ := ⟨6.75, 0.25, 3⟩
  calls := calls.push (.setTransformations scaleXYZ XrotationDegrees
    YrotationDegrees ZrotationDegrees positionXYZ)
  calls := calls.push (.setShaderColor 0.25 0.17 0.07 1)
  calls := calls.push (.setShaderTexture "wood")
  calls := calls.push (.setTextureUVScale 1 0.5)
  calls := calls.push (.setShaderMaterial "wood")
  calls := calls.push (.drawMesh .box)
  scaleXYZ := ⟨0.3, 3, 0.3⟩
  XrotationDegrees := 0
  YrotationDegrees := 0
  ZrotationDegrees := 0
  positionXYZ := ⟨6.75, 0.5, 3⟩
  calls := calls.push (.setTransformations scaleXYZ XrotationDegrees
    YrotationDegrees ZrotationDegrees positionXYZ)
  calls := calls.push (.setShaderColor 0.4 0.2 0.1 1)
  calls := calls.push (.setShaderTexture "wood")
  calls := calls.push (.setTextureUVScale 1.8 3.0)
  calls := calls.push (.setShaderMaterial "wood")
  calls := calls.push (.drawMesh .taperedCylinder)
  -- Support Column #2
  scaleXYZ := ⟨1, 0.5, 1⟩
  XrotationDegrees := 0
  YrotationDegrees := 0
  ZrotationDegrees := 0
  positionXYZ := ⟨4.75, 0.25, 3⟩
  calls := calls.push (.setTransformations scaleXYZ XrotationDegrees
    YrotationDegrees ZrotationDegrees positionXYZ)
  calls := calls.push (.setShaderColor 0.25 0.17 0.07 1)
  calls := calls.push (.setShaderTexture "wood")
  calls := calls.push (.setTextureUVScale 1 0.5)
  calls := calls.push (.setShaderMaterial "wood")
  calls := calls.push (.drawMesh .box)
  scaleXYZ := ⟨0.3, 3, 0.3⟩
  XrotationDegrees := 0
  YrotationDegrees := 0
  ZrotationDegrees := 0
  positionXYZ := ⟨4.75, 0.5, 3⟩
  calls := calls.push (.setTransformations scaleXYZ XrotationDegrees
    YrotationDegrees ZrotationDegrees positionXYZ)
  calls := calls.push (.setShaderColor 0.4 0.2 0.1 1)
  calls := calls.push (.setShaderTexture "wood")
  calls := calls.push (.setTextureUVScale 1.8 3.0)
  calls := calls.push (.setShaderMaterial "wood")
  calls := calls.push (.drawMesh .taperedCylinder)
  -- Support Column #3
  scaleXYZ := ⟨1, 0.5, 1⟩
  XrotationDegrees := 0
  YrotationDegrees := 0
  ZrotationDegrees := 0
  positionXYZ := ⟨0.25, 0.25, 3⟩
  calls := calls.push (.setTransformations scaleXYZ XrotationDegrees
    YrotationDegrees ZrotationDegrees positionXYZ)
  calls := calls.push (.setShaderColor 0.25 0.17 0.07 1)
  calls := calls.push (.setShaderTexture "wood")
  calls := calls.push (.setTextureUVScale 1 0.5)
  calls := calls.push (.setShaderMaterial "wood")
  calls := calls.push (.drawMesh .box)
  scaleXYZ := ⟨0.3, 3, 0.3⟩
  XrotationDegrees := 0
  YrotationDegrees := 0
  ZrotationDegrees := 0
  positionXYZ := ⟨0.25, 0.5, 3⟩
  calls := calls.push (.setTransformations scaleXYZ XrotationDegrees
    YrotationDegrees ZrotationDegrees positionXYZ)
  calls := calls.push (.setShaderColor 0.4 0.2 0.1 1)
  calls := calls.push (.setShaderTexture "wood")
  calls := calls.push (.setTextureUVScale 1.8 3.0)
  calls := calls.push (.setShaderMaterial "wood")
  calls := calls.push (.drawMesh .taperedCylinder)
  -- Support Column #4
  scaleXYZ := ⟨1, 0.5, 1⟩
  XrotationDegrees := 0
  YrotationDegrees := 0
  ZrotationDegrees := 0
  positionXYZ := ⟨-2, 0.25, 3⟩
  calls := calls.push (.setTransformations scaleXYZ XrotationDegrees
    YrotationDegrees ZrotationDegrees positionXYZ)
  calls := calls.push (.setShaderColor 0.25 0.17 0.07 1)
  calls := calls.push (.setShaderTexture "wood")
  calls := calls.push (.setTextureUVScale 1 0.5)
  calls := calls.push (.setShaderMaterial "wood")
  calls := calls.push (.drawMesh .box)
  scaleXYZ := ⟨0.3, 3, 0.3⟩
  XrotationDegrees := 0
  YrotationDegrees := 0
  ZrotationDegrees := 0
  positionXYZ := ⟨-2, 0.5, 3⟩
  calls := calls.push (.setTransformations scaleXYZ XrotationDegrees
    YrotationDegrees ZrotationDegrees positionXYZ)
  calls := calls.push (.setShaderColor 0.4 0.2 0.1 1)
  calls := calls.push (.setShaderTexture "wood")
  calls := calls.push (.setTextureUVScale 1.8 3.0)
  calls := calls.push (.setShaderMaterial "wood")
  calls := calls.push (.drawMesh .taperedCylinder)
  -- Horizontal Beam
  scaleXYZ := ⟨10, 0.5, 1⟩
  XrotationDegrees := 0
  YrotationDegrees := 0
  ZrotationDegrees := 0
  positionXYZ := ⟨2.25, 3.75, 3⟩
  calls := calls.push (.setTransformations scaleXYZ XrotationDegrees
    YrotationDegrees ZrotationDegrees positionXYZ)
  calls := calls.push (.setShaderColor 0.8 0.5 0.3 1)
  calls := calls.push (.setShaderTexture "roof")
  calls := calls.push (.setTextureUVScale 8 1)
  calls := calls.push (.setShaderMaterial "wood")
  calls := calls.push (.drawMesh .box)
  -- house body (left)
  scaleXYZ := ⟨15, 3.5, 8⟩
  XrotationDegrees := 0
  YrotationDegrees := 0
  ZrotationDegrees := 0
  positionXYZ := ⟨-10.25, 1.85, -4.5⟩
  calls := calls.push (.setTransformations scaleXYZ XrotationDegrees
    YrotationDegrees ZrotationDegrees positionXYZ)
  calls := calls.push (.setShaderColor 0.8 0.5 0.3 1)
  calls := calls.push (.setShaderTexture "outergreen")
  calls := calls.push (.setTextureUVScale 4 1)
  calls := calls.push (.setShaderMaterial "wood")
  calls := calls.push (.drawMesh .box)
  -- house body (right)
  scaleXYZ := ⟨7, 3.5, 8⟩
  XrotationDegrees := 0
  YrotationDegrees := 0
  ZrotationDegrees := 0
  positionXYZ := ⟨4.25, 1.5, -4.5⟩
  calls := calls.push (.setTransformations scaleXYZ XrotationDegrees
    YrotationDegrees ZrotationDegrees positionXYZ)
  calls := calls.push (.setShaderColor 0.8 0.5 0.3 1)
  calls := calls.push (.setShaderTexture "brick")
  calls := calls.push (.setTextureUVScale 8 1)
  calls := calls.push (.setShaderMaterial "wood")
  calls := calls.push (.drawMesh .box)
  -- porch walkway
  scaleXYZ := ⟨3.75, 0.1, 15.5⟩
  XrotationDegrees := 0
  YrotationDegrees := 0
  ZrotationDegrees := 0
  positionXYZ := ⟨-1, 0, 2.20⟩
  calls := calls.push (.setTransformations scaleXYZ XrotationDegrees
    YrotationDegrees ZrotationDegrees positionXYZ)
  calls := calls.push (.setShaderColor 0.8 0.5 0.3 1)
  calls := calls.push (.setShaderTexture "concrete")
  calls := calls.push (.setTextureUVScale 1 1)
  calls := calls.push (.setShaderMaterial "wood")
  calls := calls.push (.drawMesh .box)
  -- right side of porch area
  scaleXYZ := ⟨9.75, 0.1, 5.25⟩
  XrotationDegrees := 0
  YrotationDegrees := 0
  ZrotationDegrees := 0
  positionXYZ := ⟨2.90, 0, 0.95⟩
  calls := calls.push (.setTransformations scaleXYZ XrotationDegrees
    YrotationDegrees ZrotationDegrees positionXYZ)
  calls := calls.push (.setShaderColor 0.8 0.5 0.3 1)
  calls := calls.push (.setShaderTexture "concrete")
  calls := calls.push (.setTextureUVScale 1 1)
  calls := calls.push (.setShaderMaterial "wood")
  calls := calls.push (.drawMesh .box)
  -- front door
  scaleXYZ := ⟨3.75, 3.4, 4⟩
  XrotationDegrees := 0
  YrotationDegrees := 0
  ZrotationDegrees := 0
  positionXYZ := ⟨-1, 1.95, -6.45⟩
  calls := calls.push (.setTransformations scaleXYZ XrotationDegrees
    YrotationDegrees ZrotationDegrees positionXYZ)
  calls := calls.push (.setShaderColor 0.8 0.5 0.3 1)
  calls := calls.push (.setShaderTexture "door")
  calls := calls.push (.setTextureUVScale 1 1)
  calls := calls.push (.setShaderMaterial "wood")
  calls := calls.push (.drawMesh .box)
  -- upper house body (2nd story)
  scaleXYZ := ⟨25.5, 3.5, 5⟩
  XrotationDegrees := 0
  YrotationDegrees := 0
  ZrotationDegrees := 0
  positionXYZ := ⟨-5.00, 5.35, -6⟩
  calls := calls.push (.setTransformations scaleXYZ XrotationDegrees
    YrotationDegrees ZrotationDegrees positionXYZ)
  calls := calls.push (.setShaderColor 0.8 0.5 0.3 1)
  calls := calls.push (.setShaderTexture "wall")
  calls := calls.push (.setTextureUVScale 8 1)
  calls := calls.push (.setShaderMaterial "wood")
  calls := calls.push (.drawMesh .box)
  -- upper left house pyramid (2nd story)
  scaleXYZ := ⟨3, 3, 3⟩
  XrotationDegrees := 270
  YrotationDegrees := 0
  ZrotationDegrees := 0
  positionXYZ := ⟨-16.25, 5, -2⟩
  calls := calls.push (.setTransformations scaleXYZ XrotationDegrees
    YrotationDegrees ZrotationDegrees positionXYZ)
  calls := calls.push (.setShaderColor 0.8 0.5 0.3 1)
  calls := calls.push (.setShaderTexture "outergreen")
  calls := calls.push (.setTextureUVScale 1 1)
  calls := calls.push (.setShaderMaterial "wood")
  calls := calls.push (.drawMesh .prism)
  -- upper roof (2nd story)
  scaleXYZ := ⟨13, 2.5, 4⟩
  XrotationDegrees := 0
  YrotationDegrees := 0
  ZrotationDegrees := 0
  positionXYZ := ⟨-5.00, 7.25, -6⟩
  calls := calls.push (.setTransformations scaleXYZ XrotationDegrees
    YrotationDegrees ZrotationDegrees positionXYZ)
  calls := calls.push (.setShaderColor 0.8 0.5 0.3 1)
  calls := calls.push (.setShaderTexture "roof")
  calls := calls.push (.setTextureUVScale 8 1)
  calls := calls.push (.setShaderMaterial "wood")
  calls := calls.push (.drawMesh .plane)
  -- second upper left house pyramid (2nd story)
  scaleXYZ := ⟨3, 3, 3⟩
  XrotationDegrees := 270
  YrotationDegrees := 0
  ZrotationDegrees := 0
  positionXYZ := ⟨-4.25, 5, -2⟩
  calls := calls.push (.setTransformations scaleXYZ XrotationDegrees
    YrotationDegrees ZrotationDegrees positionXYZ)
  calls := calls.push (.setShaderColor 0.8 0.5 0.3 1)
  calls := calls.push (.setShaderTexture "outergreen")
  calls := calls.push (.setTextureUVScale 1 1)
  calls := calls.push (.setShaderMaterial "wood")
  calls := calls.push (.drawMesh .prism)
  -- second story window #1 left
  scaleXYZ := ⟨2, 1, 1⟩
  XrotationDegrees := 90
  YrotationDegrees := 0
  ZrotationDegrees := 0
  positionXYZ := ⟨-10, 5.25, -3⟩
  calls := calls.push (.setTransformations scaleXYZ XrotationDegrees
    YrotationDegrees ZrotationDegrees positionXYZ)
  calls := calls.push (.setShaderColor 0.5 0.5 0.5 1)
  calls := calls.push (.setShaderTexture "window")
  calls := calls.push (.setTextureUVScale 1 1)
  calls := calls.push (.setShaderMaterial "metal")
  calls := calls.push (.drawMesh .plane)
  -- second story window #2 right
  scaleXYZ := ⟨2, 1, 1⟩
  XrotationDegrees := 90
  YrotationDegrees := 0
  ZrotationDegrees := 0
  positionXYZ := ⟨3, 5.25, -3⟩
  calls := calls.push (.setTransformations scaleXYZ XrotationDegrees
    YrotationDegrees ZrotationDegrees positionXYZ)
  calls := calls.push (.setShaderColor 0.5 0.5 0.5 1)
  calls := calls.push (.setShaderTexture "window")
  calls := calls.push (.setTextureUVScale 1 1)
  calls := calls.push (.setShaderMaterial "metal")
  calls := calls.push (.drawMesh .plane)
  -- first story window #1 right
  scaleXYZ := ⟨2, 1, 1⟩
  XrotationDegrees := 90
  YrotationDegrees := 0
  ZrotationDegrees := 0
  positionXYZ := ⟨4, 2, 0⟩
  calls := calls.push (.setTransformations scaleXYZ XrotationDegrees
    YrotationDegrees ZrotationDegrees positionXYZ)
  calls := calls.push (.setShaderColor 0.5 0.5 0.5 1)
  calls := calls.push (.setShaderTexture "window")
  calls := calls.push (.setTextureUVScale 1 1)
  calls := calls.push (.setShaderMaterial "metal")
  calls := calls.push (.drawMesh .plane)
  -- garage door
  scaleXYZ := ⟨5.5, 1, 1.50⟩
  XrotationDegrees := 90
  YrotationDegrees := 0
  ZrotationDegrees := 0
  positionXYZ := ⟨-10, 1.75, 0⟩
  calls := calls.push (.setTransformations scaleXYZ XrotationDegrees
    YrotationDegrees ZrotationDegrees positionXYZ)
  calls := calls.push (.setShaderColor 0.5 0.5 0.5 1)
  calls := calls.push (.setShaderTexture "garage")
  calls := calls.push (.setTextureUVScale 0 1)
  calls := calls.push (.setShaderMaterial "metal")
  calls := calls.push (.drawMesh .plane)
  -- first story roof (left)
  scaleXYZ := ⟨8, 1, 4⟩
  XrotationDegrees := 0
  YrotationDegrees := 0
  ZrotationDegrees := 0
  positionXYZ := ⟨-10.75, 3.7, -4.25⟩
  calls := calls.push (.setTransformations scaleXYZ XrotationDegrees
    YrotationDegrees ZrotationDegrees positionXYZ)
  calls := calls.push (.setShaderColor 0.8 0.5 0.3 1)
  calls := calls.push (.setShaderTexture "roof")
  calls := calls.push (.setTextureUVScale 4 1)
  calls := calls.push (.setShaderMaterial "wood")
  calls := calls.push (.drawMesh .plane)
  -- first story roof right side
  scaleXYZ := ⟨5, 1, 5⟩
  XrotationDegrees := 0
  YrotationDegrees := 0
  ZrotationDegrees := 0
  positionXYZ := ⟨2.25, 3.5, -1.75⟩
  calls := calls.push (.setTransformations scaleXYZ XrotationDegrees
    YrotationDegrees ZrotationDegrees positionXYZ)
  calls := calls.push (.setShaderColor 0.8 0.5 0.3 1)
  calls := calls.push (.setShaderTexture "roof")
  calls := calls.push (.setTextureUVScale 8 1)
  calls := calls.push (.setShaderMaterial "wood")
  calls := calls.push (.drawMesh .plane)
  -- driveway
  scaleXYZ := ⟨5.5, 1, 7⟩
  XrotationDegrees := 0
  YrotationDegrees := 0
  ZrotationDegrees := 0
  positionXYZ := ⟨-10, 0.01, 3⟩
  calls := calls.push (.setTransformations scaleXYZ XrotationDegrees
    YrotationDegrees ZrotationDegrees positionXYZ)
  calls := calls.push (.setShaderColor 0.5 0.5 0.5 1)
  calls := calls.push (.setShaderTexture "concrete")
  calls := calls.push (.setTextureUVScale 1 1)
  calls := calls.push (.setShaderMaterial "metal")
  calls := calls.push (.drawMesh .plane)
  return calls.toList

/-! ## The spec-side fixed scene sequence

The spec describes the scene script as one fixed, non-parameterized
sequence of transform / color / texture / UV-scale / material / draw
commands, every argument a literal. It is laid out here one draw block
per definition.
-/

/-- Draw block 1 of the fixed scene sequence. -/
def fixedSceneBlock01 : List SceneCall :=
  [.setTransformations ⟨20, 1, 10⟩ 0 0 0 ⟨0, 0, 0⟩,
   .setShaderColor 0.5 0.5 0.5 1,
   .setShaderTexture "grass",
   .setTextureUVScale 1 1,
   .setShaderMaterial "metal",
   .drawMesh .plane]

/-- Draw block 2 of the fixed scene sequence. -/
def fixedSceneBlock02 : List SceneCall :=
  [.setTransformations ⟨20, 1, 10⟩ 90 0 0 ⟨0, 9, -10⟩,
   .setShaderColor 0.55 0.55 0.55 1,
   .setShaderMaterial "metal",
   .drawMesh .plane]

/-- Draw block 3 of the fixed scene sequence. -/
def fixedSceneBlock03 : List SceneCall :=
  [.setTransformations ⟨1, 0.5, 1⟩ 0 0 0 ⟨6.75, 0.25, 3⟩,
   .setShaderColor 0.25 0.17 0.07 1,
   .setShaderTexture "wood",
   .setTextureUVScale 1 0.5,
   .setShaderMaterial "wood",
   .drawMesh .box]

/-- Draw block 4 of the fixed scene sequence. -/
def fixedSceneBlock04 : List SceneCall :=
  [.setTransformations ⟨0.3, 3, 0.3⟩ 0 0 0 ⟨6.75, 0.5, 3⟩,
   .setShaderColor 0.4 0.2 0.1 1,
   .setShaderTexture "wood",
   .setTextureUVScale 1.8 3.0,
   .setShaderMaterial "wood",
   .drawMesh .taperedCylinder]

/-- Draw block 5 of the fixed scene sequence. -/
def fixedSceneBlock05 : List SceneCall :=
  [.setTransformations ⟨1, 0.5, 1⟩ 0 0 0 ⟨4.75, 0.25, 3⟩,
   .setShaderColor 0.25 0.17 0.07 1,
   .setShaderTexture "wood",
   .setTextureUVScale 1 0.5,
   .setShaderMaterial "wood",
   .drawMesh .box]

/-- Draw block 6 of the fixed scene sequence. -/
def fixedSceneBlock06 : List SceneCall :=
  [.setTransformations ⟨0.3, 3, 0.3⟩ 0 0 0 ⟨4.75, 0.5, 3⟩,
   .setShaderColor 0.4 0.2 0.1 1,
   .setShaderTexture "wood",
   .setTextureUVScale 1.8 3.0,
   .setShaderMaterial "wood",
   .drawMesh .taperedCylinder]

/-- Draw block 7 of the fixed scene sequence. -/
def fixedSceneBlock07 : List SceneCall :=
  [.setTransformations ⟨1, 0.5, 1⟩ 0 0 0 ⟨0.25, 0.25, 3⟩,
   .setShaderColor 0.25 0.17 0.07 1,
   .setShaderTexture "wood",
   .setTextureUVScale 1 0.5,
   .setShaderMaterial "wood",
   .drawMesh .box]

/-- Draw block 8 of the fixed scene sequence. -/
def fixedSceneBlock08 : List SceneCall :=
  [.setTransformations ⟨0.3, 3, 0.3⟩ 0 0 0 ⟨0.25, 0.5, 3⟩,
   .setShaderColor 0.4 0.2 0.1 1,
   .setShaderTexture "wood",
   .setTextureUVScale 1.8 3.0,
   .setShaderMaterial "wood",
   .drawMesh .taperedCylinder]

/-- Draw block 9 of the fixed scene sequence. -/
def fixedSceneBlock09 : List SceneCall :=
  [.setTransformations ⟨1, 0.5, 1⟩ 0 0 0 ⟨-2, 0.25, 3⟩,
   .setShaderColor 0.25 0.17 0.07 1,
   .setShaderTexture "wood",
   .setTextureUVScale 1 0.5,
   .setShaderMaterial "wood",
   .drawMesh .box]

/-- Draw block 10 of the fixed scene sequence. -/
def fixedSceneBlock10 : List SceneCall :=
  [.setTransformations ⟨0.3, 3, 0.3⟩ 0 0 0 ⟨-2, 0.5, 3⟩,
   .setShaderColor 0.4 0.2 0.1 1,
   .setShaderTexture "wood",
   .setTextureUVScale 1.8 3.0,
   .setShaderMaterial "wood",
   .drawMesh .taperedCylinder]

/-- Draw block 11 of the fixed scene sequence. -/
def fixedSceneBlock11 : List SceneCall :=
  [.setTransformations ⟨10, 0.5, 1⟩ 0 0 0 ⟨2.25, 3.75, 3⟩,
   .setShaderColor 0.8 0.5 0.3 1,
   .setShaderTexture "roof",
   .setTextureUVScale 8 1,
   .setShaderMaterial "wood",
   .drawMesh .box]

/-- Draw block 12 of the fixed scene sequence. -/
def fixedSceneBlock12 : List SceneCall :=
  [.setTransformations ⟨15, 3.5, 8⟩ 0 0 0 ⟨-10.25, 1.85, -4.5⟩,
   .setShaderColor 0.8 0.5 0.3 1,
   .setShaderTexture "outergreen",
   .setTextureUVScale 4 1,
   .setShaderMaterial "wood",
   .drawMesh .box]

/-- Draw block 13 of the fixed scene sequence. -/
def fixedSceneBlock13 : List SceneCall :=
  [.setTransformations ⟨7, 3.5, 8⟩ 0 0 0 ⟨4.25, 1.5, -4.5⟩,
   .setShaderColor 0.8 0.5 0.3 1,
   .setShaderTexture "brick",
   .setTextureUVScale 8 1,
   .setShaderMaterial "wood",
   .drawMesh .box]

/-- Draw block 14 of the fixed scene sequence. -/
def fixedSceneBlock14 : List SceneCall :=
  [.setTransformations ⟨3.75, 0.1, 15.5⟩ 0 0 0 ⟨-1, 0, 2.20⟩,
   .setShaderColor 0.8 0.5 0.3 1,
   .setShaderTexture "concrete",
   .setTextureUVScale 1 1,
   .setShaderMaterial "wood",
   .drawMesh .box]

/-- Draw block 15 of the fixed scene sequence. -/
def fixedSceneBlock15 : List SceneCall :=
  [.setTransformations ⟨9.75, 0.1, 5.25⟩ 0 0 0 ⟨2.90, 0, 0.95⟩,
   .setShaderColor 0.8 0.5 0.3 1,
   .setShaderTexture "concrete",
   .setTextureUVScale 1 1,
   .setShaderMaterial "wood",
   .drawMesh .box]

/-- Draw block 16 of the fixed scene sequence. -/
def fixedSceneBlock16 : List SceneCall :=
  [.setTransformations ⟨3.75, 3.4, 4⟩ 0 0 0 ⟨-1, 1.95, -6.45⟩,
   .setShaderColor 0.8 0.5 0.3 1,
   .setShaderTexture "door",
   .setTextureUVScale 1 1,
   .setShaderMaterial "wood",
   .drawMesh .box]

/-- Draw block 17 of the fixed scene sequence. -/
def fixedSceneBlock17 : List SceneCall :=
  [.setTransformations ⟨25.5, 3.5, 5⟩ 0 0 0 ⟨-5.00, 5.35, -6⟩,
   .setShaderColor 0.8 0.5 0.3 1,
   .setShaderTexture "wall",
   .setTextureUVScale 8 1,
   .setShaderMaterial "wood",
   .drawMesh .box]

/-- Draw block 18 of the fixed scene sequence. -/
def fixedSceneBlock18 : List SceneCall :=
  [.setTransformations ⟨3, 3, 3⟩ 270 0 0 ⟨-16.25, 5, -2⟩,
   .setShaderColor 0.8 0.5 0.3 1,
   .setShaderTexture "outergreen",
   .setTextureUVScale 1 1,
   .setShaderMaterial "wood",
   .drawMesh .prism]

/-- Draw block 19 of the fixed scene sequence. -/
def fixedSceneBlock19 : List SceneCall :=
  [.setTransformations ⟨13, 2.5, 4⟩ 0 0 0 ⟨-5.00, 7.25, -6⟩,
   .setShaderColor 0.8 0.5 0.3 1,
   .setShaderTexture "roof",
   .setTextureUVScale 8 1,
   .setShaderMaterial "wood",
   .drawMesh .plane]

/-- Draw block 20 of the fixed scene sequence. -/
def fixedSceneBlock20 : List SceneCall :=
  [.setTransformations ⟨3, 3, 3⟩ 270 0 0 ⟨-4.25, 5, -2⟩,
   .setShaderColor 0.8 0.5 0.3 1,
   .setShaderTexture "outergreen",
   .setTextureUVScale 1 1,
   .setShaderMaterial "wood",
   .drawMesh .prism]

/-- Draw block 21 of the fixed scene sequence. -/
def fixedSceneBlock21 : List SceneCall :=
  [.setTransformations ⟨2, 1, 1⟩ 90 0 0 ⟨-10, 5.25, -3⟩,
   .setShaderColor 0.5 0.5 0.5 1,
   .setShaderTexture "window",
   .setTextureUVScale 1 1,
   .setShaderMaterial "metal",
   .drawMesh .plane]

/-- Draw block 22 of the fixed scene sequence. -/
def fixedSceneBlock22 : List SceneCall :=
  [.setTransformations ⟨2, 1, 1⟩ 90 0 0 ⟨3, 5.25, -3⟩,
   .setShaderColor 0.5 0.5 0.5 1,
   .setShaderTexture "window",
   .setTextureUVScale 1 1,
   .setShaderMaterial "metal",
   .drawMesh .plane]

/-- Draw block 23 of the fixed scene sequence. -/
def fixedSceneBlock23 : List SceneCall :=
  [.setTransformations ⟨2, 1, 1⟩ 90 0 0 ⟨4, 2, 0⟩,
   .setShaderColor 0.5 0.5 0.5 1,
   .setShaderTexture "window",
   .setTextureUVScale 1 1,
   .setShaderMaterial "metal",
   .drawMesh .plane]

/-- Draw block 24 of the fixed scene sequence. -/
def fixedSceneBlock24 : List SceneCall :=
  [.setTransformations ⟨5.5, 1, 1.50⟩ 90 0 0 ⟨-10, 1.75, 0⟩,
   .setShaderColor 0.5 0.5 0.5 1,
   .setShaderTexture "garage",
   .setTextureUVScale 0 1,
   .setShaderMaterial "metal",
   .drawMesh .plane]

/-- Draw block 25 of the fixed scene sequence. -/
def fixedSceneBlock25 : List SceneCall :=
  [.setTransformations ⟨8, 1, 4⟩ 0 0 0 ⟨-10.75, 3.7, -4.25⟩,
   .setShaderColor 0.8 0.5 0.3 1,
   .setShaderTexture "roof",
   .setTextureUVScale 4 1,
   .setShaderMaterial "wood",
   .drawMesh .plane]

/-- Draw block 26 of the fixed scene sequence. -/
def fixedSceneBlock26 : List SceneCall :=
  [.setTransformations ⟨5, 1, 5⟩ 0 0 0 ⟨2.25, 3.5, -1.75⟩,
   .setShaderColor 0.8 0.5 0.3 1,
   .setShaderTexture "roof",
   .setTextureUVScale 8 1,
   .setShaderMaterial "wood",
   .drawMesh .plane]

/-- Draw block 27 of the fixed scene sequence. -/
def fixedSceneBlock27 : List SceneCall :=
  [.setTransformations ⟨5.5, 1, 7⟩ 0 0 0 ⟨-10, 0.01, 3⟩,
   .setShaderColor 0.5 0.5 0.5 1,
   .setShaderTexture "concrete",
   .setTextureUVScale 1 1,
   .setShaderMaterial "metal",
   .drawMesh .plane]

/-- The complete fixed scene sequence: the 27 draw blocks in order. -/
def renderSceneFixedSequence : List SceneCall :=
  List.flatten
    [fixedSceneBlock01,
     fixedSceneBlock02,
     fixedSceneBlock03,
     fixedSceneBlock04,
     fixedSceneBlock05,
     fixedSceneBlock06,
     fixedSceneBlock07,
     fixedSceneBlock08,
     fixedSceneBlock09,
     fixedSceneBlock10,
     fixedSceneBlock11,
     fixedSceneBlock12,
     fixedSceneBlock13,
     fixedSceneBlock14,
     fixedSceneBlock15,
     fixedSceneBlock16,
     fixedSceneBlock17,
     fixedSceneBlock18,
     fixedSceneBlock19,
     fixedSceneBlock20,
     fixedSceneBlock21,
     fixedSceneBlock22,
     fixedSceneBlock23,
     fixedSceneBlock24,
     fixedSceneBlock25,
     fixedSceneBlock26,
     fixedSceneBlock27]

/-! ## Helper lemmas on the texture registry scans -/

/-- The `FindTextureID` scan is the first-match lookup `List.find?`. -/
theorem findTextureID_eq_find (reg : TextureRegistry) (tag : String) :
    FindTextureID reg tag =
      ((reg.find? fun e => e.tag == tag).map TextureEntry.ID).getD (-1) := by
  induction reg with
  | nil => rfl
  | cons e rest ih =>
      by_cases h : e.tag = tag
      · simp [FindTextureID, h, List.find?_cons_of_pos]
      · simp only [FindTextureID, if_neg h, ih]
        rw [List.find?_cons_of_neg]
        simp [h]

/-- The `FindTextureSlot` scan loop, started at `k`, is the first-match index
lookup `List.findIdx?` started at `k`. -/
theorem findTextureSlotFrom_eq (reg : TextureRegistry) :
    ∀ (k : Nat) (tag : String),
      findTextureSlotFrom k reg tag =
        ((reg.findIdx? (fun e => e.tag == tag) k).map
          fun n => (n : Int)).getD (-1) := by
  induction reg with
  | nil => intro k tag; rfl
  | cons e rest ih =>
      intro k tag
      by_cases h : e.tag = tag <;>
        simp [findTextureSlotFrom, h, List.findIdx?_cons, ih]

/-! ## Claim C3: texture lookups are first-match linear scans -/

/-- C3: for every tag, `FindTextureID` performs a linear scan of the
loaded-texture registry in registration order and returns the GPU texture id
of the first entry whose tag equals the given tag (`List.find?`), and `-1`
when no loaded texture has that tag; `FindTextureSlot` behaves identically
but returns the entry's index (`List.findIdx?`) instead of its id. -/
theorem FindTexture_lookup_first_match_or_neg_one :
    ∀ (reg : TextureRegistry) (tag : String),
      FindTextureID reg tag =
        ((reg.find? fun e => e.tag == tag).map TextureEntry.ID).getD (-1) ∧
      FindTextureSlot reg tag =
        ((reg.findIdx? fun e => e.tag == tag).map fun n => (n : Int)).getD
          (-1) := by
  intro reg tag
  exact ⟨findTextureID_eq_find reg tag, findTextureSlotFrom_eq reg 0 tag⟩

/-! ## Claims C5 and C9: `CreateGLTexture` success and failure behaviour -/

/-- C5: `CreateGLTexture` returns `true` exactly when the image file is
successfully decoded with 3 or 4 color channels; on success it appends the
(new GPU texture id, tag) entry to the registry and increments the
loaded-texture count by one, and on failure it leaves the registry as it
was. -/
theorem CreateGLTexture_success_iff_decoded_3_or_4_channels :
    ∀ (load : StbiResult) (newTextureID : Int) (tag : String)
      (reg : TextureRegistry),
      ((CreateGLTexture load newTextureID tag reg).1 = true ↔
        ∃ width height channels,
          load = StbiResult.image width height channels ∧
          (channels = 3 ∨ channels = 4)) ∧
      (CreateGLTexture load newTextureID tag reg).2 =
        (if (CreateGLTexture load newTextureID tag reg).1 then
          reg ++ [{ ID := newTextureID, tag := tag }] else reg) ∧
      (CreateGLTexture load newTextureID tag reg).2.length =
        (if (CreateGLTexture load newTextureID tag reg).1 then
          reg.length + 1 else reg.length) := by
  intro load newTextureID tag reg
  cases load with
  | fail => simp [CreateGLTexture]
  | image w h c =>
      by_cases h3 : c = 3
      · simp [CreateGLTexture, h3]
        exact ⟨w, h, 3, ⟨rfl, rfl, rfl⟩, Or.inl rfl⟩
      · by_cases h4 : c = 4
        · simp [CreateGLTexture, h3, h4]
          exact ⟨w, h, 4, ⟨rfl, rfl, rfl⟩, Or.inr rfl⟩
        · simp [CreateGLTexture, h3, h4]

/-- C9: whenever `CreateGLTexture` returns `false` — unreadable file or
unsupported channel count — the texture registry is unchanged. -/
theorem CreateGLTexture_failure_is_atomic :
    ∀ (load : StbiResult) (newTextureID : Int) (tag : String)
      (reg : TextureRegistry),
      (CreateGLTexture load newTextureID tag reg).1 = false →
      (CreateGLTexture load newTextureID tag reg).2 = reg := by
  intro load newTextureID tag reg hfalse
  cases load with
  | fail => rfl
  | image w h c =>
      by_cases h3 : c = 3
      · simp [CreateGLTexture, h3] at hfalse
      · by_cases h4 : c = 4
        · simp [CreateGLTexture, h3, h4] at hfalse
        · simp [CreateGLTexture, h3, h4]

/-- Witness for C9 at a concrete failing input: a 1-channel image leaves a
one-entry registry untouched. -/
theorem CreateGLTexture_failure_is_atomic_witness :
    (CreateGLTexture (StbiResult.image 2 2 1) 7 "brick"
      [{ ID := 3, tag := "wood" }]).2 = [{ ID := 3, tag := "wood" }] :=
  CreateGLTexture_failure_is_atomic (StbiResult.image 2 2 1) 7 "brick"
    [{ ID := 3, tag := "wood" }] rfl

/-! ## Claim C4: the scene-preparation sequence stays within capacity -/

/-- One `CreateGLTexture` call grows the registry by at most one entry. -/
theorem createGLTexture_length_bounds (load : StbiResult) (newTextureID : Int)
    (tag : String) (reg : TextureRegistry) :
    reg.length ≤ (CreateGLTexture load newTextureID tag reg).2.length ∧
    (CreateGLTexture load newTextureID tag reg).2.length ≤ reg.length + 1 := by
  cases load with
  | fail => simp [CreateGLTexture]
  | image w h c =>
      by_cases h3 : c = 3
      · simp [CreateGLTexture, h3]
      · by_cases h4 : c = 4
        · simp [CreateGLTexture, h3, h4]
        · simp [CreateGLTexture, h3, h4]

/-- Bounds for a run of texture loads: starting from `reg`, after any
outcomes the final registry, every intermediate registry size and every
write index stay below `reg.length` plus the number of requests. -/
theorem runTextureLoads_bounds (stbi : String → StbiResult)
    (genTex : Nat → Int) :
    ∀ (files : List (String × String)) (k : Nat) (reg : TextureRegistry),
      (runTextureLoads stbi genTex k files reg).1.length ≤
        reg.length + files.length ∧
      (∀ c ∈ (runTextureLoads stbi genTex k files reg).2.2,
        c ≤ reg.length + files.length) ∧
      (∀ i ∈ (runTextureLoads stbi genTex k files reg).2.1,
        i < reg.length + files.length) := by
  intro files
  induction files with
  | nil => intro k reg; simp [runTextureLoads]
  | cons ft rest ih =>
      intro k reg
      obtain ⟨filename, tag⟩ := ft
      obtain ⟨hlo, hhi⟩ :=
        createGLTexture_length_bounds (stbi filename) (genTex k) tag reg
      obtain ⟨ihA, ihB, ihC⟩ :=
        ih (k + 1) (CreateGLTexture (stbi filename) (genTex k) tag reg).2
      simp only [runTextureLoads, List.length_cons, List.mem_cons,
        List.mem_append]
      refine ⟨by omega, ?_, ?_⟩
      · intro c hc
        rcases hc with hc | hc
        · omega
        · have := ihB c hc
          omega
      · intro i hi
        rcases hi with hi | hi
        · by_cases hb :
            (CreateGLTexture (stbi filename) (genTex k) tag reg).1
          · simp [hb] at hi
            omega
          · simp [hb] at hi
        · have := ihC i hi
          omega

/-- C4: in every state reached by `PrepareScene`'s texture-load sequence the
registry holds at most `TEXTURE_REGISTRY_CAPACITY = 16` entries, and every
registry write lands at an index below 16. -/
theorem PrepareScene_texture_registry_within_capacity :
    ∀ (stbi : String → StbiResult) (genTex : Nat → Int),
      (PrepareScene stbi genTex).1.length ≤ TEXTURE_REGISTRY_CAPACITY ∧
      ((PrepareScene stbi genTex).2.2.all
        fun c => c ≤ TEXTURE_REGISTRY_CAPACITY) = true ∧
      ((PrepareScene stbi genTex).2.1.all
        fun i => i < TEXTURE_REGISTRY_CAPACITY) = true := by
  intro stbi genTex
  obtain ⟨hA, hB, hC⟩ :=
    runTextureLoads_bounds stbi genTex PrepareSceneTextureFiles 0 []
  have hcap : ([] : TextureRegistry).length +
      PrepareSceneTextureFiles.length ≤ TEXTURE_REGISTRY_CAPACITY := by
    simp [PrepareSceneTextureFiles, TEXTURE_REGISTRY_CAPACITY]
  refine ⟨le_trans hA hcap, ?_, ?_⟩
  · rw [List.all_eq_true]
    intro c hc
    have := hB c hc
    simp only [decide_eq_true_eq]
    omega
  · rw [List.all_eq_true]
    intro i hi
    have := hC i hi
    simp only [decide_eq_true_eq]
    omega

/-! ## Claim C6: tag-to-slot consistency with texture-unit binding -/

/-- The binding loop started at `k` emits, for the `i`-th remaining entry,
the pair (unit `GL_TEXTURE0 + k + i`, that entry's id). -/
theorem bindGLTexturesFrom_eq (reg : TextureRegistry) :
    ∀ k : Nat, bindGLTexturesFrom k reg =
      (List.range reg.length).map
        (fun i => (GL_TEXTURE0 + (k + i), (reg.getD i ⟨0, ""⟩).ID)) := by
  induction reg with
  | nil => intro k; rfl
  | cons e rest ih =>
      intro k
      simp only [bindGLTexturesFrom, List.length_cons,
        List.range_succ_eq_map, List.map_cons, List.map_map, ih (k + 1)]
      refine congrArg₂ _ (by simp) ?_
      apply List.map_congr_left
      intro i _
      simp only [Function.comp_apply, List.getD_cons_succ]
      refine congrArg₂ _ (by omega) rfl

/-- When the first-match index scan finds index `n`, then `n` is in range,
the entry at `n` carries the sought tag, and its id is what `FindTextureID`
returns for that tag. -/
theorem slot_entry_spec (tag : String) :
    ∀ (reg : TextureRegistry) (n : Nat),
      reg.findIdx? (fun e => e.tag == tag) = some n →
      n < reg.length ∧ (reg.getD n ⟨0, ""⟩).tag = tag ∧
      (reg.getD n ⟨0, ""⟩).ID = FindTextureID reg tag := by
  intro reg
  induction reg with
  | nil => intro n h; simp at h
  | cons e rest ih =>
      intro n h
      rw [List.findIdx?_cons] at h
      by_cases he : e.tag = tag
      · simp [he] at h
        subst h
        simp [he, FindTextureID]
      · simp only [he, beq_iff_eq, if_neg he] at h
        rw [List.findIdx?_start_succ] at h
        cases hrest : rest.findIdx? (fun e => e.tag == tag) with
        | none => rw [hrest] at h; simp at h
        | some m =>
            rw [hrest] at h
            simp at h
            obtain ⟨hA, hB, hC⟩ := ih m hrest
            subst h
            simp only [List.length_cons, List.getD_cons_succ,
              FindTextureID, if_neg he]
            exact ⟨by omega, hB, hC⟩

/-- C6: for every tag of a loaded texture, `FindTextureSlot` returns the
(non-negative) index at which that texture was registered; `BindGLTextures`
binds the texture stored at each registry index `i` to texture unit
`GL_TEXTURE0 + i` for all `i` below the loaded-texture count; hence the slot
returned for the tag names the texture unit holding that tag's texture
(the id `FindTextureID` yields). -/
theorem FindTextureSlot_consistent_with_BindGLTextures
    (reg : TextureRegistry) (tag : String)
    (h : ∃ e ∈ reg, e.tag = tag) :
    FindTextureSlot reg tag = ((FindTextureSlot reg tag).toNat : Int) ∧
    (FindTextureSlot reg tag).toNat < reg.length ∧
    (reg.getD (FindTextureSlot reg tag).toNat ⟨0, ""⟩).tag = tag ∧
    BindGLTextures reg =
      (List.range reg.length).map
        (fun i => (GL_TEXTURE0 + i, (reg.getD i ⟨0, ""⟩).ID)) ∧
    (BindGLTextures reg).getD (FindTextureSlot reg tag).toNat (0, 0) =
      (GL_TEXTURE0 + (FindTextureSlot reg tag).toNat,
        FindTextureID reg tag) := by
  have hp : ∃ x, x ∈ reg ∧ (fun e => e.tag == tag) x = true := by
    obtain ⟨e, he, het⟩ := h
    exact ⟨e, he, by simp [het]⟩
  have hsome := List.findIdx?_eq_some_of_exists hp
  have hslot : FindTextureSlot reg tag =
      ((reg.findIdx fun e => e.tag == tag : Nat) : Int) := by
    rw [FindTextureSlot, findTextureSlotFrom_eq, hsome]
    rfl
  have htn : (FindTextureSlot reg tag).toNat =
      reg.findIdx fun e => e.tag == tag := by
    rw [hslot]
    simp
  obtain ⟨h1, h2, h3⟩ :=
    slot_entry_spec tag reg (reg.findIdx fun e => e.tag == tag) hsome
  have hbind : BindGLTextures reg =
      (List.range reg.length).map
        (fun i => (GL_TEXTURE0 + i, (reg.getD i ⟨0, ""⟩).ID)) := by
    have := bindGLTexturesFrom_eq reg 0
    simpa [BindGLTextures] using this
  refine ⟨by rw [htn, hslot], by rw [htn]; exact h1, by rw [htn]; exact h2,
    hbind, ?_⟩
  rw [htn, hbind]
  simp only [List.getD_eq_getElem?_getD, List.getElem?_eq_getElem h1,
    Option.getD_some] at h3
  simp [List.getD_eq_getElem?_getD, List.getElem?_map, List.getElem?_range, h1,
    h3]

/-- Witness for C6 on a concrete two-entry registry and the tag of its
second texture. -/
theorem FindTextureSlot_consistent_with_BindGLTextures_witness :
    FindTextureSlot [⟨7, "wood"⟩, ⟨9, "brick"⟩] "brick" =
      ((FindTextureSlot [⟨7, "wood"⟩, ⟨9, "brick"⟩] "brick").toNat : Int) ∧
    (FindTextureSlot [⟨7, "wood"⟩, ⟨9, "brick"⟩] "brick").toNat <
      ([⟨7, "wood"⟩, ⟨9, "brick"⟩] : TextureRegistry).length ∧
    (([⟨7, "wood"⟩, ⟨9, "brick"⟩] : TextureRegistry).getD
      (FindTextureSlot [⟨7, "wood"⟩, ⟨9, "brick"⟩] "brick").toNat
      ⟨0, ""⟩).tag = "brick" ∧
    BindGLTextures [⟨7, "wood"⟩, ⟨9, "brick"⟩] =
      (List.range ([⟨7, "wood"⟩, ⟨9, "brick"⟩] : TextureRegistry).length).map
        (fun i => (GL_TEXTURE0 + i,
          (([⟨7, "wood"⟩, ⟨9, "brick"⟩] : TextureRegistry).getD i
            ⟨0, ""⟩).ID)) ∧
    (BindGLTextures [⟨7, "wood"⟩, ⟨9, "brick"⟩]).getD
      (FindTextureSlot [⟨7, "wood"⟩, ⟨9, "brick"⟩] "brick").toNat (0, 0) =
      (GL_TEXTURE0 + (FindTextureSlot [⟨7, "wood"⟩, ⟨9, "brick"⟩]
        "brick").toNat,
        FindTextureID [⟨7, "wood"⟩, ⟨9, "brick"⟩] "brick") :=
  FindTextureSlot_consistent_with_BindGLTextures
    [⟨7, "wood"⟩, ⟨9, "brick"⟩] "brick" ⟨⟨9, "brick"⟩, by simp, rfl⟩

/-! ## Claim C10: `SetShaderTexture` with a missing tag, versus
`SetShaderColor` -/

/-- The value of the `bUseTexture` uniform after replaying a list of shader
writes over a prior value: the last `setIntValue` to `g_UseTextureName`
wins. -/
def bUseTextureAfter (prior : Int) (writes : List ShaderWrite) : Int :=
  writes.foldl (fun acc w =>
    match w with
    | .intValue name value =>
        if name = g_UseTextureName then value else acc
    | _ => acc) prior

/-- A tag carried by no registry entry makes the slot scan return `-1`. -/
theorem findTextureSlot_missing (reg : TextureRegistry) (tag : String)
    (h : ∀ e ∈ reg, e.tag ≠ tag) : FindTextureSlot reg tag = -1 := by
  rw [FindTextureSlot, findTextureSlotFrom_eq]
  have : reg.findIdx? (fun e => e.tag == tag) = none := by
    rw [List.findIdx?_eq_none_iff]
    intro e he
    simpa using h e he
  rw [this]
  rfl

/-- C10: calling `SetShaderTexture` with a tag absent from the texture
registry does not fall back to color rendering — it still sets `bUseTexture`
to `true` (1) and uploads `-1` as the sampler slot; every `SetShaderColor`
call sets `bUseTexture` to `false` (0); and each of the two calls determines
the flag regardless of its prior value. -/
theorem SetShaderTexture_missing_tag_still_textured
    (reg : TextureRegistry) (tag : String)
    (h : ∀ e ∈ reg, e.tag ≠ tag) :
    ∀ (r g b a : ℚ) (prior : Int),
      SetShaderTexture true reg tag =
        [.intValue g_UseTextureName 1,
         .sampler2D g_TextureValueName (-1)] ∧
      SetShaderColor true r g b a =
        [.intValue g_UseTextureName 0,
         .vec4Value g_ColorValueName ⟨r, g, b, a⟩] ∧
      bUseTextureAfter prior (SetShaderTexture true reg tag) = 1 ∧
      bUseTextureAfter prior (SetShaderColor true r g b a) = 0 := by
  intro r g b a prior
  have hslot := findTextureSlot_missing reg tag h
  refine ⟨?_, rfl, ?_, ?_⟩
  · simp [SetShaderTexture, hslot]
  · simp [bUseTextureAfter, SetShaderTexture, hslot]
  · simp [bUseTextureAfter, SetShaderColor]

/-- Witness for C10: a registry holding only "wood" and the missing tag
"brick", with a concrete color and both prior flag values exercised. -/
theorem SetShaderTexture_missing_tag_still_textured_witness :
    SetShaderTexture true [⟨5, "wood"⟩] "brick" =
      [.intValue g_UseTextureName 1,
       .sampler2D g_TextureValueName (-1)] ∧
    SetShaderColor true 0.2 0.4 0.6 1 =
      [.intValue g_UseTextureName 0,
       .vec4Value g_ColorValueName ⟨0.2, 0.4, 0.6, 1⟩] ∧
    bUseTextureAfter 0 (SetShaderTexture true [⟨5, "wood"⟩] "brick") = 1 ∧
    bUseTextureAfter 0 (SetShaderColor true 0.2 0.4 0.6 1) = 0 :=
  SetShaderTexture_missing_tag_still_textured [⟨5, "wood"⟩] "brick"
    (by simp) 0.2 0.4 0.6 1 0

/-! ## Claim C2: `FindMaterial`'s return value on a missing tag -/

/-- C2 fails on the code: on the registry populated by
`DefineObjectMaterials` — which contains no material tagged "plastic" —
`FindMaterial` nevertheless returns `true` (the scan's `bFound` flag is
ignored by the final `return`), while leaving the out-parameter unchanged.
The claim says it should return `true` exactly when the tag is defined. -/
theorem FindMaterial_true_on_missing_tag :
    (FindMaterial (DefineObjectMaterials []) "plastic"
      ⟨⟨0, 0, 0⟩, 0, ⟨0, 0, 0⟩, ⟨0, 0, 0⟩, 0, ""⟩).1 = true ∧
    ((DefineObjectMaterials []).all fun m => m.tag ≠ "plastic") = true ∧
    (FindMaterial (DefineObjectMaterials []) "plastic"
      ⟨⟨0, 0, 0⟩, 0, ⟨0, 0, 0⟩, ⟨0, 0, 0⟩, 0, ""⟩).2 =
      ⟨⟨0, 0, 0⟩, 0, ⟨0, 0, 0⟩, ⟨0, 0, 0⟩, 0, ""⟩ := by
  refine ⟨rfl, by decide, rfl⟩

/-! ## Claim C7: the material registry after `DefineObjectMaterials` -/

/-- C7: starting from an empty registry, `DefineObjectMaterials` produces
exactly the two entries `shinyMaterial` and `dullMaterial`: "metal" with
shininess 64 and specular color (0.5, 0.5, 0.5), and "wood" with shininess
16 and specular color (0.1, 0.1, 0.1), each record carrying ambient color,
ambient strength, diffuse color, specular color and shininess. -/
theorem DefineObjectMaterials_defines_metal_and_wood :
    DefineObjectMaterials [] = [shinyMaterial, dullMaterial] ∧
    (DefineObjectMaterials []).length = 2 ∧
    shinyMaterial.tag = "metal" ∧
    shinyMaterial.shininess = 64 ∧
    shinyMaterial.specularColor = ⟨0.5, 0.5, 0.5⟩ ∧
    dullMaterial.tag = "wood" ∧
    dullMaterial.shininess = 16 ∧
    dullMaterial.specularColor = ⟨0.1, 0.1, 0.1⟩ :=
  ⟨rfl, rfl, rfl, rfl, rfl, rfl, rfl, rfl⟩

/-! ## Claim C8: the scene script is a fixed sequence -/

/-- C8: `RenderScene` issues exactly the fixed scene-call sequence
`renderSceneFixedSequence` — every transform, color, texture, UV-scale,
material and draw command with literal arguments, independent of any
parameter or input — and two invocations over the same registry state (and
the same indeterminate contents of `SetShaderMaterial`'s uninitialized
local) produce the same event trace. -/
theorem RenderScene_fixed_sequence_deterministic
    (tex1 tex2 : TextureRegistry) (mats1 mats2 : List OBJECT_MATERIAL)
    (material0 : OBJECT_MATERIAL)
    (htex : tex1 = tex2) (hmats : mats1 = mats2) :
    RenderScene = renderSceneFixedSequence ∧
    interpretSceneCalls true tex1 mats1 material0 RenderScene =
      interpretSceneCalls true tex2 mats2 material0 RenderScene := by
  subst htex
  subst hmats
  exact ⟨rfl, rfl⟩

/-- Witness for C8 at a concrete registry state: one "grass" texture and the
two defined materials. -/
theorem RenderScene_fixed_sequence_deterministic_witness :
    RenderScene = renderSceneFixedSequence ∧
    interpretSceneCalls true [⟨1, "grass"⟩] (DefineObjectMaterials [])
      ⟨⟨0, 0, 0⟩, 0, ⟨0, 0, 0⟩, ⟨0, 0, 0⟩, 0, ""⟩ RenderScene =
    interpretSceneCalls true [⟨1, "grass"⟩] (DefineObjectMaterials [])
      ⟨⟨0, 0, 0⟩, 0, ⟨0, 0, 0⟩, ⟨0, 0, 0⟩, 0, ""⟩ RenderScene :=
  RenderScene_fixed_sequence_deterministic [⟨1, "grass"⟩] [⟨1, "grass"⟩]
    (DefineObjectMaterials []) (DefineObjectMaterials [])
    ⟨⟨0, 0, 0⟩, 0, ⟨0, 0, 0⟩, ⟨0, 0, 0⟩, 0, ""⟩ rfl rfl

/-! ## Claim C1: the transform composer -/

/-- Normalizing the x-axis unit vector is the identity. -/
theorem glmNormalize_unitX : glmNormalize ⟨1, 0, 0⟩ = ⟨(1 : ℝ), 0, 0⟩ := by
  unfold glmNormalize
  norm_num

/-- glm's axis-angle rotation at axis (1,0,0) is the textbook rotation about
the x-axis. -/
theorem glmRotate_xAxis (t : ℝ) :
    glmRotate t ⟨1, 0, 0⟩ = rotationAboutX t := by
  unfold glmRotate rotationAboutX
  rw [glmNormalize_unitX]
  ext i j
  fin_cases i <;> fin_cases j <;> simp

/-- Normalizing the y-axis unit vector is the identity. -/
theorem glmNormalize_unitY : glmNormalize ⟨0, 1, 0⟩ = ⟨(0 : ℝ), 1, 0⟩ := by
  unfold glmNormalize
  norm_num

/-- Normalizing the z-axis unit vector is the identity. -/
theorem glmNormalize_unitZ : glmNormalize ⟨0, 0, 1⟩ = ⟨(0 : ℝ), 0, 1⟩ := by
  unfold glmNormalize
  norm_num

/-- glm's axis-angle rotation at axis (0,1,0) is the textbook rotation about
the y-axis. -/
theorem glmRotate_yAxis (t : ℝ) :
    glmRotate t ⟨0, 1, 0⟩ = rotationAboutY t := by
  unfold glmRotate rotationAboutY
  rw [glmNormalize_unitY]
  ext i j
  fin_cases i <;> fin_cases j <;> simp

/-- glm's axis-angle rotation at axis (0,0,1) is the textbook rotation about
the z-axis. -/
theorem glmRotate_zAxis (t : ℝ) :
    glmRotate t ⟨0, 0, 1⟩ = rotationAboutZ t := by
  unfold glmRotate rotationAboutZ
  rw [glmNormalize_unitZ]
  ext i j
  fin_cases i <;> fin_cases j <;> simp

/-- glm's scale matrix equals the spec-side diagonal matrix. -/
theorem glmScale_eq_spec (v : Vec3 ℝ) : glmScale v = specScaleMatrix v := by
  unfold glmScale specScaleMatrix
  ext i j
  fin_cases i <;> fin_cases j <;>
    simp [Matrix.diagonal, Matrix.vecHead, Matrix.vecTail]

/-- glm's translation matrix equals the spec-side translation matrix. -/
theorem glmTranslate_eq_spec (v : Vec3 ℝ) :
    glmTranslate v = specTranslationMatrix v := by
  unfold glmTranslate specTranslationMatrix
  ext i j
  fin_cases i <;> fin_cases j <;>
    simp [Matrix.vecHead, Matrix.vecTail]

/-- The degree-to-radian conversion is multiplication by pi over 180. -/
theorem radians_eq (d : ℝ) : glmRadians d = d * Real.pi / 180 := by
  unfold glmRadians
  ring

/-- C1: for every scale vector, rotation angles (X, Y, Z, in degrees) and
position vector, `SetTransformations` (with a shader manager present)
uploads to the "model" uniform the product
`translation * rotZ * rotY * rotX * scale`, with each rotation the textbook
rotation about its coordinate axis by the angle converted to radians. -/
theorem SetTransformations_uploads_translate_rotZ_rotY_rotX_scale
    (scaleXYZ : Vec3 ℝ)
    (XrotationDegrees YrotationDegrees ZrotationDegrees : ℝ)
    (positionXYZ : Vec3 ℝ) :
    SetTransformations true scaleXYZ XrotationDegrees YrotationDegrees
      ZrotationDegrees positionXYZ =
      some ("model",
        specTranslationMatrix positionXYZ *
        rotationAboutZ (ZrotationDegrees * Real.pi / 180) *
        rotationAboutY (YrotationDegrees * Real.pi / 180) *
        rotationAboutX (XrotationDegrees * Real.pi / 180) *
        specScaleMatrix scaleXYZ) := by
  unfold SetTransformations
  rw [glmRotate_xAxis, glmRotate_yAxis, glmRotate_zAxis, glmScale_eq_spec,
    glmTranslate_eq_spec, radians_eq, radians_eq, radians_eq]
  rfl
